import Mathlib

/-!
Shallow embedding of the destination-intelligence MCP server core: the
destination-matching scoring engine (recommend-destinations), the tiered
content resolution of generate-personalized-itinerary and
generate-travel-inspiration, and the comparison composer
(compare-destinations), translated from the TypeScript sources.

External effects appear as explicit parameters: a database query result is
passed in as a value (a table of rows, a looked-up row, a template row), the
generative enrichment call as an `Except` (its failure or unconfigured state
is the `error` case), and each best-effort database write as a `Bool`
success flag. Numbers (ratings, costs, scores) are rationals, matching the
arbitrary-precision decimal columns and IEEE doubles of the source; counts
are naturals. Response fields that no verified property mentions (hero
images, call-to-action strings, SEO metadata, inspiration themes, the
display strings of comparison values) are omitted from the embedded
response records.
-/

/-- Decidable equality of `Except` results, used to state concrete facts
about handler outcomes. -/
instance {ε α : Type} [DecidableEq ε] [DecidableEq α] : DecidableEq (Except ε α)
  | .error a, .error b => decidable_of_iff (a = b) (by simp)
  | .error _, .ok _ => isFalse (by simp)
  | .ok _, .error _ => isFalse (by simp)
  | .ok a, .ok b => decidable_of_iff (a = b) (by simp)

/-- JavaScript truthiness of an optional string: null, undefined and the
empty string are falsy. -/
def strTruthy (s : Option String) : Bool :=
  match s with
  | some v => !(v == "")
  | none => false

/-- JavaScript `x || d` on an optional string: null, undefined and the empty
string fall through to the default. -/
def jsStrOr (o : Option String) (d : String) : String :=
  match o with
  | some s => if s = "" then d else s
  | none => d

/-- JavaScript `x || d` on an optional number: null, undefined and 0 fall
through to the default. -/
def jsNumOr (o : Option ℚ) (d : ℚ) : ℚ :=
  match o with
  | some x => if x = 0 then d else x
  | none => d

/-- JavaScript `Math.round`: round half toward positive infinity. -/
def jsRound (x : ℚ) : ℚ := ((⌊x + 1/2⌋ : ℤ) : ℚ)

/-- JavaScript `String.prototype.toUpperCase` (ASCII range, as used by the
interest tags of the source data). -/
def upperString (s : String) : String := String.mk (s.data.map Char.toUpper)

/-- JavaScript `String.prototype.toLowerCase` (ASCII range). -/
def lowerString (s : String) : String := String.mk (s.data.map Char.toLower)

/-- Whether the first character list is an initial segment of the second. -/
def charsInitSeg : List Char → List Char → Bool
  | [], _ => true
  | _ :: _, [] => false
  | a :: as, b :: bs => a == b && charsInitSeg as bs

/-- Whether the first character list occurs contiguously in the second. -/
def charsContains (needle : List Char) : List Char → Bool
  | [] => needle.isEmpty
  | c :: cs => charsInitSeg needle (c :: cs) || charsContains needle cs

/-- JavaScript `hay.includes(needle)`: substring containment. -/
def strIncludes (hay needle : String) : Bool := charsContains needle.data hay.data

/-- Subset of the `best_time_to_visit` jsonb payload read by the tools. The
seeded payloads always carry a `months` array. -/
structure BestTimeToVisit where
  months : List String := []
deriving DecidableEq

/-- Row of the `destinations` table, restricted to the columns the embedded
tools read. Optional columns are `Option`; a database NULL is `none`. -/
structure Destination where
  city : String
  country : String := ""
  destination_type : Option (List String) := none
  best_time_to_visit : Option BestTimeToVisit := none
  safety_rating : Option ℚ := none
  tourist_infrastructure_rating : Option ℚ := none
  budget_level : Option String := none
  average_daily_cost_usd : Option ℚ := none
  popular_activities : Option (List String) := none
  famous_attractions : Option (List String) := none
  hero_image_url : Option String := none
  gallery_images : Option (List String) := none
  is_active : Bool := true
deriving DecidableEq

/-- Row of the candidate query of recommend-destinations: a destination row
joined with its `popularity_score` count of log entries that surfaced it. -/
structure CandidateRow extends Destination where
  popularity_score : ℕ := 0
deriving DecidableEq

/-- Row of `user_travel_preferences`, restricted to the columns the scoring
engine reads. -/
structure UserTravelPreferences where
  interests : Option (List String) := none
  budget_preference : Option String := none
  bucket_list_destinations : Option (List String) := none
deriving DecidableEq

/-- Inline budget range of the request context. -/
structure BudgetRange where
  min : ℚ
  max : ℚ
deriving DecidableEq

/-- Request-scoped context of recommend-destinations. -/
structure RecContext where
  travel_month : Option String := none
  budget_range : Option BudgetRange := none
  interests : Option (List String) := none
  previous_destinations : Option (List String) := none
deriving DecidableEq

/-- Input of recommend-destinations (constraints are accepted but unused by
the handler, and are omitted). -/
structure RecommendDestinationsInput where
  passenger_id : Option String := none
  context : Option RecContext := none
  recommendation_count : Option ℕ := none
deriving DecidableEq

/-- Count of destination category tags that appear, after uppercasing the
interest, as a substring of some profile interest
(`userInterests.some(i => i.toUpperCase().includes(type))`). -/
def profileInterestMatches (destTypes : List String) (userInterests : List String) : ℕ :=
  (destTypes.filter (fun t => userInterests.any (fun i => strIncludes (upperString i) t))).length

/-- Count of destination category tags exactly equal to some uppercased
context interest (`context.interests.some(i => i.toUpperCase() === type)`). -/
def contextInterestMatches (destTypes : List String) (ctxInterests : List String) : ℕ :=
  (destTypes.filter (fun t => ctxInterests.any (fun i => upperString i == t))).length

/-- Profile-driven additive terms of the match score: +10 per matching
interest tag, +15 on exact budget-level equality (null equals null, as the
strict equality of the source does on two SQL NULLs), +25 on bucket-list
membership of the city name. -/
def profileBoost (dest : CandidateRow) (up : UserTravelPreferences) : ℚ :=
  (profileInterestMatches (dest.destination_type.getD []) (up.interests.getD []) : ℚ) * 10
    + (if dest.budget_level = up.budget_preference then 15 else 0)
    + (if (up.bucket_list_destinations.getD []).contains dest.city then 25 else 0)

/-- Context-interest additive term: +15 per exactly-matching tag. The source
guard `if (context.interests)` is true for any present array, including an
empty one. -/
def contextBoost (dest : CandidateRow) (context : RecContext) : ℚ :=
  if context.interests.isSome then
    (contextInterestMatches (dest.destination_type.getD []) (context.interests.getD []) : ℚ) * 15
  else 0

/-- Months of the best-time-to-visit payload, defaulting to the empty list
(`dest.best_time_to_visit?.months || []`). -/
def bestMonths (d : Destination) : List String :=
  match d.best_time_to_visit with
  | some b => b.months
  | none => []

/-- Seasonal additive term: +20 when a (truthy) requested travel month is
among the best months. -/
def seasonalBoost (dest : CandidateRow) (context : RecContext) : ℚ :=
  match context.travel_month with
  | some m => if m = "" then 0 else if (bestMonths dest.toDestination).contains m then 20 else 0
  | none => 0

/-- Popularity additive term: `Math.min(popularity_score * 2, 10)`. -/
def popularityBoost (p : ℕ) : ℚ := ((min (p * 2) 10 : ℕ) : ℚ)

/-- Infrastructure additive term: twice the tourist-infrastructure rating,
behind the truthiness guard of the source (null and 0 contribute nothing). -/
def infrastructureBoost (dest : CandidateRow) : ℚ :=
  match dest.tourist_infrastructure_rating with
  | some r => if r = 0 then 0 else r * 2
  | none => 0

/-- Unclamped match score: base 50 plus the additive terms. -/
def matchScoreRaw (dest : CandidateRow) (userPreferences : Option UserTravelPreferences)
    (context : RecContext) : ℚ :=
  50 + (match userPreferences with
        | some up => profileBoost dest up
        | none => 0)
    + contextBoost dest context + seasonalBoost dest context
    + popularityBoost dest.popularity_score + infrastructureBoost dest

/-- Final match score: `Math.min(matchScore, 100)`. -/
def matchScore (dest : CandidateRow) (userPreferences : Option UserTravelPreferences)
    (context : RecContext) : ℚ :=
  min (matchScoreRaw dest userPreferences context) 100

/-- Effective count of context-interest matches that the context term adds
(0 when no context interest array is supplied). -/
def contextMatchCount (dest : CandidateRow) (context : RecContext) : ℕ :=
  if context.interests.isSome then
    contextInterestMatches (dest.destination_type.getD []) (context.interests.getD [])
  else 0

/-- Candidate row extended with its computed match score
(`{...dest, match_score}`). -/
structure ScoredRow extends CandidateRow where
  match_score : ℚ
deriving DecidableEq

/-- Strict ranking of two optional infrastructure ratings under the SQL
`ORDER BY tourist_infrastructure_rating DESC` of the candidate query; a
NULL rating sorts first, as under the Postgres default NULLS FIRST. -/
def infraHigher (x y : Option ℚ) : Bool :=
  match x, y with
  | none, none => false
  | none, some _ => true
  | some _, none => false
  | some a, some b => decide (b < a)

/-- Whether row `x` sorts strictly before row `y` under the candidate query
order `ORDER BY popularity_score DESC, tourist_infrastructure_rating DESC`. -/
def sqlBefore (x y : CandidateRow) : Bool :=
  decide (y.popularity_score < x.popularity_score)
    || (x.popularity_score == y.popularity_score
        && infraHigher x.tourist_infrastructure_rating y.tourist_infrastructure_rating)

/-- Stable insertion of a row into a list ordered by `sqlBefore`. -/
def insertSql (x : CandidateRow) : List CandidateRow → List CandidateRow
  | [] => [x]
  | y :: ys => if sqlBefore x y then x :: y :: ys else y :: insertSql x ys

/-- Stable sort realizing the candidate query ORDER BY. Row order on full
key ties is unspecified by SQL; the model keeps the incoming table order. -/
def sqlOrder (l : List CandidateRow) : List CandidateRow :=
  l.foldl (fun acc x => insertSql x acc) []

/-- The candidate query of recommend-destinations: active destinations,
filtered by the optional budget range (SQL BETWEEN, NULL cost excluded),
optional interest overlap (SQL array overlap, NULL tags excluded), and
optional previous-destination exclusion, ordered by popularity then
infrastructure rating, limited to twice the requested count. -/
def candidateQuery (table : List CandidateRow) (context : RecContext)
    (recommendation_count : ℕ) : List CandidateRow :=
  let active := table.filter (fun d => d.is_active)
  let afterBudget :=
    match context.budget_range with
    | some r => active.filter (fun d =>
        match d.average_daily_cost_usd with
        | some c => decide (r.min ≤ c) && decide (c ≤ r.max)
        | none => false)
    | none => active
  let afterInterests :=
    match context.interests with
    | some ints =>
        if ints.isEmpty then afterBudget
        else afterBudget.filter (fun d =>
          match d.destination_type with
          | some ts => ts.any (fun t => ints.contains t)
          | none => false)
    | none => afterBudget
  let afterPrevious :=
    match context.previous_destinations with
    | some prev =>
        if prev.isEmpty then afterInterests
        else afterInterests.filter (fun d => !(prev.contains d.city))
    | none => afterInterests
  (sqlOrder afterPrevious).take (recommendation_count * 2)

/-- Preferences used for scoring: the stored profile row is consulted only
when a (truthy) passenger id was supplied. -/
def effectivePreferences (input : RecommendDestinationsInput)
    (prefsDb : Option UserTravelPreferences) : Option UserTravelPreferences :=
  if strTruthy input.passenger_id then prefsDb else none

/-- Candidate rows of the query, each carrying its computed match score. -/
def scoredCandidates (prefsDb : Option UserTravelPreferences) (table : List CandidateRow)
    (input : RecommendDestinationsInput) : List ScoredRow :=
  let context := input.context.getD {}
  (candidateQuery table context (input.recommendation_count.getD 5)).map
    (fun d => { toCandidateRow := d
                match_score := matchScore d (effectivePreferences input prefsDb) context })

/-- Stable insertion for the descending-score sort: a new element passes an
existing one only when its score is strictly greater, as the stable
`sort((a, b) => b.match_score - a.match_score)` of the source does. -/
def insertByScore (x : ScoredRow) : List ScoredRow → List ScoredRow
  | [] => [x]
  | y :: ys => if y.match_score < x.match_score then x :: y :: ys else y :: insertByScore x ys

/-- Stable descending sort by match score. -/
def sortByScoreDesc (l : List ScoredRow) : List ScoredRow :=
  l.foldl (fun acc x => insertByScore x acc) []

/-- Scored candidates after the descending-score sort. -/
def rankedCandidates (prefsDb : Option UserTravelPreferences) (table : List CandidateRow)
    (input : RecommendDestinationsInput) : List ScoredRow :=
  sortByScoreDesc (scoredCandidates prefsDb table input)

/-- Human-readable match reasons of one recommendation entry, re-derived
from the fired scoring terms, with the two generic defaults when none
fired, truncated to 3. -/
def matchReasons (context : RecContext) (dest : ScoredRow) : List String :=
  let r1 : List String :=
    match context.travel_month with
    | some m =>
        if m = "" then []
        else if (bestMonths dest.toDestination).contains m then
          ["Perfect weather in " ++ m]
        else []
    | none => []
  let r2 : List String :=
    match context.interests with
    | some ints =>
        (match dest.destination_type with
         | some ts =>
             (match ts.filter (fun t => ints.contains (lowerString t)) with
              | [] => []
              | m :: _ => ["Matches your interest in " ++ lowerString m])
         | none => [])
    | none => []
  let r3 : List String :=
    match dest.safety_rating with
    | some r => if r = 0 then [] else if 4 ≤ r then ["High safety rating"] else []
    | none => []
  let r4 : List String :=
    match dest.tourist_infrastructure_rating with
    | some r => if r = 0 then [] else if (4.5 : ℚ) ≤ r then ["Excellent tourist infrastructure"] else []
    | none => []
  let reasons := r1 ++ r2 ++ r3 ++ r4
  (if reasons.isEmpty then ["Popular destination", "Great for first-time visitors"] else reasons).take 3

/-- One formatted recommendation entry (display-only fields omitted). -/
structure DestinationRecommendation where
  rank : ℕ
  destination : String
  country : String
  match_score : ℚ
  match_reasons : List String
  destination_highlights : List String
  estimated_budget : ℚ
deriving DecidableEq

/-- Formatting of one ranked row at a 0-based index. -/
def formatOne (context : RecContext) (index : ℕ) (dest : ScoredRow) : DestinationRecommendation :=
  { rank := index + 1
    destination := dest.city
    country := dest.country
    match_score := dest.match_score
    match_reasons := matchReasons context dest
    destination_highlights :=
      match dest.famous_attractions with
      | some l => l.take 4
      | none => []
    estimated_budget := jsNumOr dest.average_daily_cost_usd 100 }

/-- Index-carrying map realizing `personalizedDestinations.map((dest, i) => ...)`. -/
def formatRecommendations (context : RecContext) : ℕ → List ScoredRow → List DestinationRecommendation
  | _, [] => []
  | i, d :: ds => formatOne context i d :: formatRecommendations context (i + 1) ds

/-- Response of recommend-destinations (inspiration themes omitted). -/
structure RecommendationsResponse where
  recommendations : List DestinationRecommendation
deriving DecidableEq

/-- The recommend-destinations handler. `prefsDb` is the preference row the
profile query returns, `aiPersonalize` the result of a successful generative
personalization call (`none` when that capability is unconfigured or its
call failed, in which case the candidates pass through unchanged), and
`logInsertOk` the outcome of the best-effort analytics insert, which is
wrapped in try/catch and cannot affect the response. -/
def recommendDestinations (prefsDb : Option UserTravelPreferences) (table : List CandidateRow)
    (aiPersonalize : Option (List ScoredRow)) (logInsertOk : Bool)
    (input : RecommendDestinationsInput) : RecommendationsResponse :=
  let context := input.context.getD {}
  let recommendation_count := input.recommendation_count.getD 5
  let candidates := candidateQuery table context recommendation_count
  if candidates.isEmpty then { recommendations := [] }
  else
    let top := (rankedCandidates prefsDb table input).take recommendation_count
    let personalized :=
      if (effectivePreferences input prefsDb).isSome || context.interests.isSome then
        match aiPersonalize with
        | some l => l
        | none => top
      else top
    let _ := logInsertOk
    { recommendations := formatRecommendations context 0 personalized }

/-- One activity slot of a day plan. -/
structure ScheduleSlot where
  activity : String
  location : String
  duration : String
  why_this : String
  tips : List String
deriving DecidableEq

/-- Meal recommendations of one day. -/
structure DayMeals where
  breakfast : String
  lunch : String
  dinner : String
deriving DecidableEq

/-- One day of an itinerary schedule. -/
structure DayPlan where
  day : ℕ
  theme : String
  morning : ScheduleSlot
  afternoon : ScheduleSlot
  evening : ScheduleSlot
  meals : DayMeals
  estimated_cost : ℚ
  walking_distance_km : ℚ
deriving DecidableEq

/-- Per-day budget breakdown. -/
structure BudgetBreakdown where
  meals : ℚ
  activities : ℚ
  transportation : ℚ
  total_per_day : ℚ
deriving DecidableEq

/-- Header block of an itinerary response. -/
structure ItineraryHeader where
  destination : String
  total_days : ℤ
  travel_style : String
  overview : String
deriving DecidableEq

/-- One alternative-activity suggestion. -/
structure AlternativeOption where
  day : ℕ
  original_activity : String
  alternative : String
  reason : String
deriving DecidableEq

/-- Response of generate-personalized-itinerary. -/
structure ItineraryResponse where
  itinerary : ItineraryHeader
  daily_schedule : List DayPlan
  alternative_options : List AlternativeOption
  packing_list : List String
  budget_breakdown : BudgetBreakdown
deriving DecidableEq

/-- Parsed JSON artifact a successful generative itinerary call returns. -/
structure AIItinerary where
  itinerary : ItineraryHeader
  daily_schedule : List DayPlan
  alternative_options : Option (List AlternativeOption) := none
  packing_list : Option (List String) := none
  budget_breakdown : Option BudgetBreakdown := none
deriving DecidableEq

/-- Row of `itinerary_templates`, restricted to the columns the handler
reads after the template lookup. -/
structure ItineraryTemplate where
  template_id : String := ""
  trip_style : String
  daily_schedule : Option (List DayPlan) := none
  packing_list : Option (List String) := none
  budget_breakdown : Option BudgetBreakdown := none
deriving DecidableEq

/-- Traveler profile block of the itinerary request. -/
structure TravelerProfile where
  traveler_type : Option String := none
  interests : Option (List String) := none
  pace_preference : Option String := none
  budget_level : Option String := none
  must_see_attractions : Option (List String) := none
deriving DecidableEq

/-- Input of generate-personalized-itinerary (travel dates are accepted but
unused by the handler, and are omitted). -/
structure GenerateItineraryInput where
  destination : String
  duration_days : ℤ
  traveler_profile : Option TravelerProfile := none
deriving DecidableEq

/-- Default budget breakdown derived from the average daily cost
(40% meals, 40% activities, 20% transportation, rounded). -/
def defaultBudgetBreakdown (dest : Destination) : BudgetBreakdown :=
  { meals := jsRound (jsNumOr dest.average_daily_cost_usd 100 * (0.4 : ℚ))
    activities := jsRound (jsNumOr dest.average_daily_cost_usd 100 * (0.4 : ℚ))
    transportation := jsRound (jsNumOr dest.average_daily_cost_usd 100 * (0.2 : ℚ))
    total_per_day := jsNumOr dest.average_daily_cost_usd 100 }

/-- Tier-1 response assembled from a matched itinerary template. -/
def templateResponse (dest : Destination) (template : ItineraryTemplate)
    (duration_days : ℤ) : ItineraryResponse :=
  { itinerary :=
      { destination := dest.city
        total_days := duration_days
        travel_style := template.trip_style
        overview := "Experience the best of " ++ dest.city ++ " in " ++ toString duration_days
          ++ " days with this " ++ lowerString template.trip_style ++ " itinerary." }
    daily_schedule := template.daily_schedule.getD []
    alternative_options := []
    packing_list := template.packing_list.getD []
    budget_breakdown := template.budget_breakdown.getD (defaultBudgetBreakdown dest) }

/-- Tier-2 response: the generated artifact merged with authoritative
destination data (city name override, defaults for absent blocks). -/
def aiItineraryResponse (dest : Destination) (ai : AIItinerary) : ItineraryResponse :=
  { itinerary := { ai.itinerary with destination := dest.city }
    daily_schedule := ai.daily_schedule
    alternative_options := ai.alternative_options.getD []
    packing_list := ai.packing_list.getD
      ["Comfortable walking shoes", "Weather-appropriate clothing", "Camera",
       "Power adapter", "Reusable water bottle"]
    budget_breakdown := ai.budget_breakdown.getD (defaultBudgetBreakdown dest) }

/-- One day of the tier-3 deterministic fallback schedule, cycling through
the famous attractions of the destination (JavaScript `||` makes an absent
or empty attraction entry fall back to generic text). -/
def fallbackDay (dest : Destination) (i : ℕ) : DayPlan :=
  { day := i + 1
    theme := if i = 0 then "Arrival & City Introduction"
             else "Day " ++ toString (i + 1) ++ " Exploration"
    morning :=
      { activity := jsStrOr (dest.famous_attractions.bind (fun l => l.get? (i * 2)))
          "Explore local area"
        location := dest.city
        duration := "2-3 hours"
        why_this := "Popular attraction"
        tips := ["Arrive early", "Book tickets in advance"] }
    afternoon :=
      { activity := jsStrOr (dest.famous_attractions.bind (fun l => l.get? (i * 2 + 1)))
          "Local cuisine exploration"
        location := dest.city
        duration := "3-4 hours"
        why_this := "Must-see experience"
        tips := ["Take your time", "Enjoy the experience"] }
    evening :=
      { activity := "Dinner and local nightlife"
        location := dest.city
        duration := "2-3 hours"
        why_this := "Experience local culture"
        tips := ["Try local specialties", "Ask locals for recommendations"] }
    meals :=
      { breakfast := "Hotel or local café"
        lunch := "Local restaurant"
        dinner := "Traditional cuisine" }
    estimated_cost := jsNumOr dest.average_daily_cost_usd 100
    walking_distance_km := 5 }

/-- Tier-3 deterministic fallback itinerary: one schedule entry per day. -/
def fallbackItinerary (dest : Destination) (duration_days : ℤ) : ItineraryResponse :=
  { itinerary :=
      { destination := dest.city
        total_days := duration_days
        travel_style := "BALANCED"
        overview := "Explore " ++ dest.city ++ " at your own pace. This "
          ++ toString duration_days ++ "-day itinerary covers the highlights." }
    daily_schedule := (List.range duration_days.toNat).map (fallbackDay dest)
    alternative_options := []
    packing_list := ["Comfortable walking shoes", "Weather-appropriate clothing",
                     "Camera", "Travel documents"]
    budget_breakdown := defaultBudgetBreakdown dest }

/-- The generate-personalized-itinerary handler. `destResult` is the row
the destination lookup returns, `templateResult` the row of the template
lookup, `enrich` the generative call (it throws when unconfigured or on
provider failure), `usageUpdateOk` the outcome of the usage-counter UPDATE
(awaited with no try/catch, so a failure propagates as an error),
`templateInsertOk` the outcome of the best-effort template INSERT (wrapped
in try/catch). -/
def generatePersonalizedItinerary (destResult : Option Destination)
    (templateResult : Option ItineraryTemplate) (enrich : Except String AIItinerary)
    (usageUpdateOk : Bool) (templateInsertOk : Bool)
    (input : GenerateItineraryInput) : Except String ItineraryResponse :=
  if input.duration_days < 1 ∨ 30 < input.duration_days then
    .error "Duration must be between 1 and 30 days"
  else
    match destResult with
    | none => .error ("Destination \"" ++ input.destination ++ "\" not found")
    | some dest =>
        match templateResult with
        | some template =>
            if usageUpdateOk then .ok (templateResponse dest template input.duration_days)
            else .error "database error"
        | none =>
            match enrich with
            | .ok ai =>
                let response := aiItineraryResponse dest ai
                let _ := templateInsertOk
                .ok response
            | .error _ => .ok (fallbackItinerary dest input.duration_days)

/-- Parsed JSON artifact a successful generative inspiration call returns. -/
structure AIInspiration where
  title : String
  subtitle : String
  body : String
  callToAction : String
deriving DecidableEq

/-- Input of generate-travel-inspiration. -/
structure GenerateInspirationInput where
  content_type : String
  theme : String
  target_destination : Option String := none
  target_audience : Option String := none
  tone : Option String := none
  word_count : Option ℚ := none
deriving DecidableEq

/-- Content block of the generate-travel-inspiration response (SEO metadata
and related packages omitted). -/
structure InspirationContent where
  title : String
  subtitle : String
  body : String
  call_to_action : String
  images : List String
  estimated_read_time : ℤ
deriving DecidableEq

/-- The generate-travel-inspiration handler. The generative call is awaited
with no try/catch, so its failure (including the unconfigured-client throw)
propagates to the caller; `saveOk` is the outcome of the best-effort content
INSERT (wrapped in try/catch). -/
def generateTravelInspiration (enrich : Except String AIInspiration)
    (destLookup : Option Destination) (saveOk : Bool)
    (input : GenerateInspirationInput) : Except String InspirationContent :=
  match enrich with
  | .error e => .error e
  | .ok ai =>
      let word_count := input.word_count.getD 500
      let images : List String :=
        if strTruthy input.target_destination then
          match destLookup with
          | some dest =>
              ((dest.gallery_images.getD [])
                ++ (match dest.hero_image_url with
                    | some u => [u]
                    | none => [])).filter (fun s => !(s == ""))
          | none => []
        else []
      let _ := saveOk
      .ok { title := ai.title
            subtitle := ai.subtitle
            body := ai.body
            call_to_action := ai.callToAction
            images := images.take 5
            estimated_read_time := ⌈word_count / 200⌉ }

/-- Input of compare-destinations. -/
structure CompareDestinationsInput where
  destinations : List String
  comparison_criteria : Option (List String) := none
deriving DecidableEq

/-- One criterion row of the comparison matrix (display value strings
omitted; a row carries a winner only for the criteria that declare one). -/
structure ComparisonCriterion where
  criterion : String
  winner : Option String := none
deriving DecidableEq

/-- Response of compare-destinations. -/
structure CompareDestinationsResponse where
  destinations : List String
  criteria : List ComparisonCriterion
  best_for_budget : String
  best_for_weather : String
  best_for_culture : String
deriving DecidableEq

/-- Winner of the cost criterion: the first destination attaining the
minimum of `average_daily_cost_usd || 100` (the running minimum starts at
Infinity, so the first row always replaces the empty initial winner). -/
def costWinner (dests : List Destination) : String :=
  ((dests.foldl (fun acc d =>
      let cost := jsNumOr d.average_daily_cost_usd 100
      match acc with
      | none => some (cost, d.city)
      | some (m, w) => if cost < m then some (cost, d.city) else some (m, w))
    none).map Prod.snd).getD ""

/-- Winner of the activities criterion: the first destination with a
strictly maximal popular-activities count (the empty initial winner
survives when every count is 0). -/
def activitiesWinner (dests : List Destination) : String :=
  (dests.foldl (fun acc d =>
    let count := (d.popular_activities.getD []).length
    if acc.1 < count then (count, d.city) else acc) ((0 : ℕ), "")).2

/-- The compare-destinations handler. `table` is the destinations table the
lookup query scans, `currentMonthKey` the lowercased short month name of
the wall clock (it only feeds the display-only weather values, which are
omitted from the embedded response). -/
def compareDestinations (table : List Destination) (currentMonthKey : String)
    (input : CompareDestinationsInput) : Except String CompareDestinationsResponse :=
  let destinations := input.destinations
  let comparison_criteria := input.comparison_criteria.getD ["COST", "WEATHER", "ACTIVITIES", "CULTURE"]
  if destinations.length < 2 ∨ 4 < destinations.length then
    .error "Please provide 2-4 destinations to compare"
  else
    let dests := table.filter (fun d =>
      (destinations.map lowerString).contains (lowerString d.city) && d.is_active)
    if dests.length < destinations.length then
      .error "One or more destinations not found"
    else
      match dests with
      | [] => .error "One or more destinations not found"
      | d0 :: rest =>
          let _ := currentMonthKey
          let criteria :=
            (if comparison_criteria.contains "COST" then
              [{ criterion := "Average Daily Cost", winner := some (costWinner dests) }] else [])
            ++ (if comparison_criteria.contains "WEATHER" then
              [{ criterion := "Average Temperature (Current Month)" }] else [])
            ++ (if comparison_criteria.contains "ACTIVITIES" then
              [{ criterion := "Popular Activities", winner := some (activitiesWinner dests) }] else [])
            ++ (if comparison_criteria.contains "CULTURE" then
              [{ criterion := "Destination Type" }] else [])
            ++ (if comparison_criteria.contains "FAMILY_FRIENDLY" then
              [{ criterion := "Family-Friendly" }] else [])
          let budgetDest := rest.foldl (fun m d =>
            if jsNumOr d.average_daily_cost_usd 100 < jsNumOr m.average_daily_cost_usd 100
            then d else m) d0
          let cultureDest :=
            (dests.find? (fun d => (d.destination_type.getD []).contains "CULTURAL")).getD d0
          .ok { destinations := dests.map (fun d => d.city)
                criteria := criteria
                best_for_budget := budgetDest.city
                best_for_weather := d0.city
                best_for_culture := cultureDest.city }

/-- Barcelona row of the seed data. -/
def seedBarcelona : Destination :=
  { city := "Barcelona", country := "Spain"
    destination_type := some ["CULTURAL", "BEACH", "FAMILY"]
    best_time_to_visit := some { months := ["April", "May", "June", "September", "October"] }
    safety_rating := some (4.2 : ℚ)
    tourist_infrastructure_rating := some (4.8 : ℚ)
    budget_level := some "MODERATE"
    average_daily_cost_usd := some 120
    popular_activities := some ["Beach", "Architecture", "Museums", "Food Tours", "Shopping"]
    famous_attractions := some ["Sagrada Familia", "Park Güell", "Las Ramblas",
                                "Gothic Quarter", "Casa Batlló"]
    is_active := true }

/-- Tokyo row of the seed data. -/
def seedTokyo : Destination :=
  { city := "Tokyo", country := "Japan"
    destination_type := some ["CULTURAL", "LUXURY", "FAMILY"]
    best_time_to_visit := some { months := ["March", "April", "May", "October", "November"] }
    safety_rating := some (4.9 : ℚ)
    tourist_infrastructure_rating := some 5
    budget_level := some "MODERATE"
    average_daily_cost_usd := some 150
    popular_activities := some ["Temples", "Shopping", "Food Tours", "Technology", "Anime"]
    famous_attractions := some ["Senso-ji Temple", "Tokyo Skytree", "Shibuya Crossing",
                                "Meiji Shrine", "Tsukiji Market"]
    is_active := true }

/-- Dubai row of the seed data. -/
def seedDubai : Destination :=
  { city := "Dubai", country := "United Arab Emirates"
    destination_type := some ["LUXURY", "SHOPPING", "BEACH", "FAMILY"]
    best_time_to_visit := some { months := ["November", "December", "January", "February", "March"] }
    safety_rating := some (4.6 : ℚ)
    tourist_infrastructure_rating := some 5
    budget_level := some "LUXURY"
    average_daily_cost_usd := some 200
    popular_activities := some ["Shopping", "Desert Safari", "Beach", "Skyscrapers", "Fine Dining"]
    famous_attractions := some ["Burj Khalifa", "Dubai Mall", "Palm Jumeirah",
                                "Dubai Marina", "Gold Souk"]
    is_active := true }

/-- Panama City row of the seed data. -/
def seedPanamaCity : Destination :=
  { city := "Panama City", country := "Panama"
    destination_type := some ["CULTURAL", "BEACH", "ADVENTURE"]
    best_time_to_visit := some { months := ["December", "January", "February", "March", "April"] }
    safety_rating := some 4
    tourist_infrastructure_rating := some (4.3 : ℚ)
    budget_level := some "MODERATE"
    average_daily_cost_usd := some 100
    popular_activities := some ["Canal Tour", "Old Town", "Island Hopping", "Rainforest", "Beaches"]
    famous_attractions := some ["Panama Canal", "Casco Viejo", "Biomuseo",
                                "Miraflores Locks", "Metropolitan Natural Park"]
    is_active := true }

/-- Cartagena row of the seed data. -/
def seedCartagena : Destination :=
  { city := "Cartagena", country := "Colombia"
    destination_type := some ["CULTURAL", "BEACH", "ROMANTIC"]
    best_time_to_visit := some { months := ["December", "January", "February", "March"] }
    safety_rating := some (3.8 : ℚ)
    tourist_infrastructure_rating := some 4
    budget_level := some "MODERATE"
    average_daily_cost_usd := some 80
    popular_activities := some ["Historic Sites", "Beach", "Food Tours", "Salsa Dancing", "Island Hopping"]
    famous_attractions := some ["Walled City", "Castillo San Felipe", "Rosario Islands",
                                "Getsemani", "Las Bovedas"]
    is_active := true }

/-- The five seeded destination rows, in insertion order. -/
def seedDestinations : List Destination :=
  [seedBarcelona, seedTokyo, seedDubai, seedPanamaCity, seedCartagena]

/-- Barcelona candidate row with no prior recommendation-log entries. -/
def bcnRow : CandidateRow := { toDestination := seedBarcelona, popularity_score := 0 }

/-- Candidate row with a perfect infrastructure rating and no popularity. -/
def rowAville : CandidateRow :=
  { city := "Aville", country := "A", tourist_infrastructure_rating := some 5,
    is_active := true, popularity_score := 0 }

/-- Candidate row with a lower infrastructure rating and one prior log entry. -/
def rowBeetown : CandidateRow :=
  { city := "Beetown", country := "B", tourist_infrastructure_rating := some 4,
    is_active := true, popularity_score := 1 }

/-- Minimal candidate row carrying only a city name. -/
def mkPlainRow (c : String) : CandidateRow := { city := c, country := "X" }

/-- Table of twelve active candidate rows. -/
def table12 : List CandidateRow :=
  [mkPlainRow "C01", mkPlainRow "C02", mkPlainRow "C03", mkPlainRow "C04",
   mkPlainRow "C05", mkPlainRow "C06", mkPlainRow "C07", mkPlainRow "C08",
   mkPlainRow "C09", mkPlainRow "C10", mkPlainRow "C11", mkPlainRow "C12"]

/-- Candidate row whose non-bucket score terms already reach 95. -/
def clampRow : CandidateRow :=
  { city := "Kyoto", country := "Japan", budget_level := some "MODERATE",
    best_time_to_visit := some { months := ["May"] },
    tourist_infrastructure_rating := some 5, is_active := true, popularity_score := 0 }

/-- Preference row matching `clampRow` on budget, without it on the bucket list. -/
def prefsNoBucket : UserTravelPreferences :=
  { budget_preference := some "MODERATE", bucket_list_destinations := some [] }

/-- The same preference row with `clampRow`'s city on the bucket list. -/
def prefsWithBucket : UserTravelPreferences :=
  { budget_preference := some "MODERATE", bucket_list_destinations := some ["Kyoto"] }

/-- Context requesting a May trip. -/
def ctxMay : RecContext := { travel_month := some "May" }

/-- Candidate row carrying two category tags. -/
def tagRow : CandidateRow :=
  { city := "Tagville", country := "T", destination_type := some ["CULTURAL", "BEACH"] }

/-- Preference row with an empty interest list. -/
def prefsFewMatches : UserTravelPreferences := { interests := some [] }

/-- Preference row whose single interest matches one tag of `tagRow`. -/
def prefsMoreMatches : UserTravelPreferences := { interests := some ["cultural trips"] }

/-- Context whose single interest matches one tag of `tagRow`. -/
def ctxBeach : RecContext := { interests := some ["beach"] }

/-- Minimal featured itinerary template row. -/
def sampleTemplate : ItineraryTemplate := { trip_style := "RELAXED" }

/-- Inserting into the score-ordered list grows the length by one. -/
lemma length_insertByScore (x : ScoredRow) (l : List ScoredRow) :
    (insertByScore x l).length = l.length + 1 := by
  induction l with
  | nil => simp [insertByScore]
  | cons y ys ih =>
      simp only [insertByScore]
      split
      · simp
      · simp [ih]

/-- The descending-score sort preserves length. -/
lemma length_sortByScoreDesc (l : List ScoredRow) :
    (sortByScoreDesc l).length = l.length := by
  suffices h : ∀ acc : List ScoredRow,
      (l.foldl (fun acc x => insertByScore x acc) acc).length = acc.length + l.length by
    simpa [sortByScoreDesc] using h []
  induction l with
  | nil => intro acc; simp
  | cons y ys ih =>
      intro acc
      simp only [List.foldl_cons]
      rw [ih, length_insertByScore]
      simp only [List.length_cons]
      omega

/-- Members of an insertion are the new element or old members. -/
lemma mem_insertByScore {a x : ScoredRow} {l : List ScoredRow} :
    a ∈ insertByScore x l ↔ a = x ∨ a ∈ l := by
  induction l with
  | nil => simp [insertByScore]
  | cons y ys ih =>
      simp only [insertByScore]
      split
      · simp [or_comm, or_left_comm]
      · simp [ih]
        tauto

/-- Insertion preserves the descending-score ordering invariant. -/
lemma pairwise_insertByScore {x : ScoredRow} {l : List ScoredRow}
    (h : l.Pairwise (fun a b => b.match_score ≤ a.match_score)) :
    (insertByScore x l).Pairwise (fun a b => b.match_score ≤ a.match_score) := by
  induction l with
  | nil => simp [insertByScore]
  | cons y ys ih =>
      rcases List.pairwise_cons.mp h with ⟨hy, hys⟩
      simp only [insertByScore]
      split
      · rename_i hlt
        refine List.pairwise_cons.mpr ⟨?_, h⟩
        intro b hb
        rcases List.mem_cons.mp hb with rfl | hb
        · exact le_of_lt hlt
        · exact le_trans (hy b hb) (le_of_lt hlt)
      · rename_i hnlt
        refine List.pairwise_cons.mpr ⟨?_, ih hys⟩
        intro b hb
        rcases mem_insertByScore.mp hb with rfl | hb
        · exact le_of_not_lt hnlt
        · exact hy b hb

/-- The descending-score sort yields a list ordered by descending score. -/
lemma pairwise_sortByScoreDesc (l : List ScoredRow) :
    (sortByScoreDesc l).Pairwise (fun a b => b.match_score ≤ a.match_score) := by
  suffices h : ∀ acc : List ScoredRow,
      acc.Pairwise (fun a b => b.match_score ≤ a.match_score) →
      (l.foldl (fun acc x => insertByScore x acc) acc).Pairwise
        (fun a b => b.match_score ≤ a.match_score) by
    exact h [] (by simp)
  induction l with
  | nil => intro acc hacc; simpa using hacc
  | cons y ys ih =>
      intro acc hacc
      simp only [List.foldl_cons]
      exact ih _ (pairwise_insertByScore hacc)

/-- Inserting a row whose score differs from `s` leaves the score-`s`
entries untouched. -/
lemma filter_insertByScore_ne (x : ScoredRow) (l : List ScoredRow) (s : ℚ)
    (hx : ¬ x.match_score = s) :
    (insertByScore x l).filter (fun c => c.match_score == s)
      = l.filter (fun c => c.match_score == s) := by
  induction l with
  | nil => simp [insertByScore, hx]
  | cons y ys ih =>
      simp only [insertByScore]
      split
      · simp [List.filter_cons, hx]
      · simp only [List.filter_cons]
        split
        · simp only [ih]
        · exact ih

/-- Inserting a row with score `s` into a descending-ordered list appends it
after the existing score-`s` entries. -/
lemma filter_insertByScore_eq (x : ScoredRow) (l : List ScoredRow) (s : ℚ)
    (hx : x.match_score = s)
    (h : l.Pairwise (fun a b => b.match_score ≤ a.match_score)) :
    (insertByScore x l).filter (fun c => c.match_score == s)
      = l.filter (fun c => c.match_score == s) ++ [x] := by
  induction l with
  | nil => simp [insertByScore, hx]
  | cons y ys ih =>
      rcases List.pairwise_cons.mp h with ⟨hy, hys⟩
      simp only [insertByScore]
      split
      · rename_i hlt
        have hrest : (y :: ys).filter (fun c => c.match_score == s) = [] := by
          rw [List.filter_eq_nil_iff]
          intro a ha
          have hle : a.match_score ≤ y.match_score := by
            rcases List.mem_cons.mp ha with rfl | ha
            · exact le_refl _
            · exact hy a ha
          have : a.match_score < s := lt_of_le_of_lt hle (hx ▸ hlt)
          simp [ne_of_lt this]
        rw [hrest]
        simp [List.filter_cons, hx, hrest]
      · simp only [List.filter_cons]
        split
        · simp only [ih hys, List.cons_append]
        · exact ih hys

/-- Stability of the descending-score sort, as commutation with the
equal-score filter: starting from a sorted accumulator, folding insertions
appends the score-`s` entries in arrival order. -/
lemma filter_foldl_insertByScore (l : List ScoredRow) (s : ℚ) :
    ∀ acc : List ScoredRow, acc.Pairwise (fun a b => b.match_score ≤ a.match_score) →
      (l.foldl (fun acc x => insertByScore x acc) acc).filter (fun c => c.match_score == s)
        = acc.filter (fun c => c.match_score == s) ++ l.filter (fun c => c.match_score == s) := by
  induction l with
  | nil => intro acc hacc; simp
  | cons y ys ih =>
      intro acc hacc
      simp only [List.foldl_cons]
      rw [ih _ (pairwise_insertByScore hacc)]
      by_cases hy : y.match_score = s
      · rw [filter_insertByScore_eq y acc s hy hacc]
        simp [List.filter_cons, hy]
      · rw [filter_insertByScore_ne y acc s hy]
        simp [List.filter_cons, hy]

/-- The descending-score sort keeps equal-score entries in input order. -/
lemma filter_sortByScoreDesc (l : List ScoredRow) (s : ℚ) :
    (sortByScoreDesc l).filter (fun c => c.match_score == s)
      = l.filter (fun c => c.match_score == s) := by
  simpa [sortByScoreDesc] using filter_foldl_insertByScore l s [] (by simp)

/-- Formatting preserves the number of entries. -/
lemma length_formatRecommendations (ctx : RecContext) (i : ℕ) (l : List ScoredRow) :
    (formatRecommendations ctx i l).length = l.length := by
  induction l generalizing i with
  | nil => simp [formatRecommendations]
  | cons d ds ih => simp [formatRecommendations, ih]

/-- Formatting preserves the match scores, in order. -/
lemma map_score_formatRecommendations (ctx : RecContext) (i : ℕ) (l : List ScoredRow) :
    (formatRecommendations ctx i l).map (fun r => r.match_score)
      = l.map (fun c => c.match_score) := by
  induction l generalizing i with
  | nil => simp [formatRecommendations]
  | cons d ds ih => simp [formatRecommendations, formatOne, ih]

/-- Every formatted entry carries at most three match reasons. -/
lemma reasons_le_three_formatRecommendations (ctx : RecContext) (i : ℕ) (l : List ScoredRow) :
    List.Forall (fun r => r.match_reasons.length ≤ 3) (formatRecommendations ctx i l) := by
  induction l generalizing i with
  | nil => simp [formatRecommendations]
  | cons d ds ih =>
      rw [formatRecommendations, List.forall_cons]
      exact ⟨by simp [formatOne, matchReasons, List.length_take_le], ih (i + 1)⟩

/-- A string with a nonempty left part of an append is nonempty. -/
lemma append_ne_empty_left (a b : String) (ha : a ≠ "") : a ++ b ≠ "" := by
  intro h
  apply ha
  have hl := congrArg String.length h
  rw [String.length_append] at hl
  have h0 : a.length = 0 := by
    have : String.length "" = 0 := rfl
    omega
  cases a with
  | mk data =>
      cases data with
      | nil => rfl
      | cons c cs => simp [String.length, List.length] at h0

/-- JavaScript `x || d` on strings never yields the empty string when the
default is nonempty. -/
lemma jsStrOr_ne_empty (o : Option String) (d : String) (hd : d ≠ "") :
    jsStrOr o d ≠ "" := by
  cases o with
  | none => exact hd
  | some s =>
      show (if s = "" then d else s) ≠ ""
      split
      · exact hd
      · assumption

/-- The profile term is non-negative. -/
lemma profileBoost_nonneg (dest : CandidateRow) (up : UserTravelPreferences) :
    0 ≤ profileBoost dest up := by
  unfold profileBoost
  have h1 : (0 : ℚ) ≤ (profileInterestMatches (dest.destination_type.getD [])
      (up.interests.getD []) : ℚ) * 10 := by positivity
  have h2 : (0 : ℚ) ≤ (if dest.budget_level = up.budget_preference then (15 : ℚ) else 0) := by
    split <;> norm_num
  have h3 : (0 : ℚ) ≤
      (if (up.bucket_list_destinations.getD []).contains dest.city then (25 : ℚ) else 0) := by
    split <;> norm_num
  linarith

/-- The context-interest term is non-negative. -/
lemma contextBoost_nonneg (dest : CandidateRow) (context : RecContext) :
    0 ≤ contextBoost dest context := by
  unfold contextBoost
  split
  · positivity
  · exact le_refl 0

/-- The seasonal term is non-negative. -/
lemma seasonalBoost_nonneg (dest : CandidateRow) (context : RecContext) :
    0 ≤ seasonalBoost dest context := by
  cases hm : context.travel_month with
  | none => simp [seasonalBoost, hm]
  | some m =>
      simp only [seasonalBoost, hm]
      split
      · norm_num
      · split <;> norm_num

/-- The popularity term is non-negative. -/
lemma popularityBoost_nonneg (p : ℕ) : 0 ≤ popularityBoost p := by
  unfold popularityBoost
  positivity

/-- The infrastructure term is non-negative whenever the stored rating is
(the schema constrains the rating to [0, 5]). -/
lemma infrastructureBoost_nonneg (dest : CandidateRow)
    (h : 0 ≤ dest.tourist_infrastructure_rating.getD 0) :
    0 ≤ infrastructureBoost dest := by
  cases hr : dest.tourist_infrastructure_rating with
  | none => simp [infrastructureBoost, hr]
  | some r =>
      have h0 : (0 : ℚ) ≤ r := by
        rw [hr] at h
        simpa using h
      simp only [infrastructureBoost, hr]
      split
      · norm_num
      · linarith

/-- The context term equals 15 per effective context match. -/
lemma contextBoost_eq_count (dest : CandidateRow) (context : RecContext) :
    contextBoost dest context = (contextMatchCount dest context : ℚ) * 15 := by
  unfold contextBoost contextMatchCount
  cases h : context.interests <;> simp [h]

/-- The seasonal term only reads the requested month and the best months of
the candidate. -/
lemma seasonalBoost_congr (dest : CandidateRow) (c1 c2 : RecContext)
    (hm : c1.travel_month = c2.travel_month) :
    seasonalBoost dest c1 = seasonalBoost dest c2 := by
  unfold seasonalBoost
  rw [hm]

/-- The unclamped score never falls below the base of 50 when the stored
infrastructure rating is non-negative. -/
lemma matchScoreRaw_ge_base (dest : CandidateRow) (prefs : Option UserTravelPreferences)
    (context : RecContext) (h : 0 ≤ dest.tourist_infrastructure_rating.getD 0) :
    50 ≤ matchScoreRaw dest prefs context := by
  unfold matchScoreRaw
  have h1 : (0 : ℚ) ≤ (match prefs with
      | some up => profileBoost dest up
      | none => 0) := by
    cases prefs with
    | none => norm_num
    | some up => simpa using profileBoost_nonneg dest up
  have h2 := contextBoost_nonneg dest context
  have h3 := seasonalBoost_nonneg dest context
  have h4 := popularityBoost_nonneg dest.popularity_score
  have h5 := infrastructureBoost_nonneg dest h
  linarith

/-- A list with a repeated element strictly shrinks under dedup. -/
lemma dedup_length_lt_of_not_nodup {α : Type} [DecidableEq α] (l : List α)
    (h : ¬ l.Nodup) : l.dedup.length < l.length := by
  have hs := List.dedup_sublist l
  rcases lt_or_eq_of_le hs.length_le with hlt | heq
  · exact hlt
  · exfalso
    apply h
    have hd := hs.eq_of_length heq
    rw [← hd]
    exact List.nodup_dedup l

/-- Against a table whose lowercased city names are pairwise distinct, the
comparison lookup returns strictly fewer rows than a request list that
repeats a city name (in any letter case). -/
lemma compare_filter_length_lt (table : List Destination) (names : List String)
    (htable : (table.map (fun d => lowerString d.city)).Nodup)
    (hdup : ¬ (names.map lowerString).Nodup) :
    (table.filter (fun d =>
      (names.map lowerString).contains (lowerString d.city) && d.is_active)).length
      < names.length := by
  set rows := table.filter (fun d =>
    (names.map lowerString).contains (lowerString d.city) && d.is_active) with hrows
  have hsubl : rows.Sublist table := List.filter_sublist table
  have hnd : (rows.map (fun d => lowerString d.city)).Nodup :=
    (hsubl.map (fun d => lowerString d.city)).nodup htable
  have hsub : (rows.map (fun d => lowerString d.city)) ⊆ (names.map lowerString).dedup := by
    intro x hx
    rcases List.mem_map.mp hx with ⟨d, hd, rfl⟩
    have hpd := (List.mem_filter.mp hd).2
    have hcontains : ((names.map lowerString).contains (lowerString d.city)) = true := by
      have hb := hpd
      rw [Bool.and_eq_true] at hb
      exact hb.1
    rw [List.mem_dedup]
    simpa using hcontains
  have hlen1 : rows.length ≤ (names.map lowerString).dedup.length := by
    have hle := (hnd.subperm hsub).length_le
    simpa using hle
  have hlen2 : (names.map lowerString).dedup.length < (names.map lowerString).length :=
    dedup_length_lt_of_not_nodup _ hdup
  have hfin := lt_of_le_of_lt hlen1 hlen2
  simpa using hfin

/-- C1 (amended): for every candidate, profile (present or absent) and
context, given the schema bound that the stored infrastructure rating is
non-negative, the computed match score is a rational in [0, 100] — it starts
at a base of 50, every added term is non-negative, and the final value is
clamped to at most 100. (The original claim also asserted the score is an
integer, which fails: the infrastructure term doubles a one-decimal rating.) -/
theorem recommend_score_in_range (dest : CandidateRow) (prefs : Option UserTravelPreferences)
    (context : RecContext) (h : 0 ≤ dest.tourist_infrastructure_rating.getD 0) :
    0 ≤ matchScore dest prefs context ∧ matchScore dest prefs context ≤ 100 := by
  unfold matchScore
  constructor
  · exact le_min (by linarith [matchScoreRaw_ge_base dest prefs context h]) (by norm_num)
  · exact min_le_right _ _

/-- Witness for C1: the seeded Barcelona row with no profile and an empty
context satisfies the rating hypothesis and the score bounds. -/
theorem recommend_score_in_range_witness :
    0 ≤ bcnRow.tourist_infrastructure_rating.getD 0
      ∧ (0 ≤ matchScore bcnRow none {} ∧ matchScore bcnRow none {} ≤ 100) :=
  ⟨by norm_num [bcnRow, seedBarcelona],
   recommend_score_in_range bcnRow none {} (by norm_num [bcnRow, seedBarcelona])⟩

/-- Counterexample for C1 as stated: on the seeded Barcelona row (rating
4.8) with no profile and an empty context the computed score is 298/5 =
59.6, which is not an integer. -/
theorem recommend_score_not_integer :
    ¬ ∃ n : ℤ, matchScore bcnRow none {} = (n : ℚ) := by
  have h : matchScore bcnRow none {} = 298/5 := by
    norm_num [matchScore, matchScoreRaw, profileBoost, contextBoost, seasonalBoost,
      popularityBoost, infrastructureBoost, bcnRow, seedBarcelona,
      contextInterestMatches, profileInterestMatches]
  rw [h]
  rintro ⟨n, hn⟩
  have h5 : (298 : ℚ) = 5 * (n : ℚ) := by
    field_simp at hn
    linarith
  have hz : (298 : ℤ) = 5 * n := by exact_mod_cast h5
  omega

/-- C2 (amended): holding the candidate, the context and every other profile
field fixed, a profile whose bucket-list set contains the candidate city
name yields an unclamped score exactly 25 higher, and hence a final score
exactly 25 higher whenever the bucket-list score does not exceed the clamp
at 100. (The original claim asserted the difference of 25 for the final
clamped score unconditionally, which the clamp falsifies.) -/
theorem bucket_list_adds_25 (dest : CandidateRow) (up1 up2 : UserTravelPreferences)
    (context : RecContext)
    (hi : up1.interests = up2.interests)
    (hb : up1.budget_preference = up2.budget_preference)
    (h1 : ((up1.bucket_list_destinations.getD []).contains dest.city) = false)
    (h2 : ((up2.bucket_list_destinations.getD []).contains dest.city) = true) :
    matchScoreRaw dest (some up2) context = matchScoreRaw dest (some up1) context + 25
    ∧ (matchScoreRaw dest (some up2) context ≤ 100 →
        matchScore dest (some up2) context = matchScore dest (some up1) context + 25) := by
  have hpb : profileBoost dest up2 = profileBoost dest up1 + 25 := by
    unfold profileBoost
    rw [← hi, ← hb]
    simp only [h1, h2]
    norm_num
  have hraw : matchScoreRaw dest (some up2) context
      = matchScoreRaw dest (some up1) context + 25 := by
    unfold matchScoreRaw
    dsimp only
    rw [hpb]
    ring
  refine ⟨hraw, fun hle => ?_⟩
  have hle1 : matchScoreRaw dest (some up1) context ≤ 100 := by linarith
  unfold matchScore
  rw [min_eq_left hle, min_eq_left hle1, hraw]

/-- Witness for C2: `prefsNoBucket` and `prefsWithBucket` differ exactly in
the bucket-list membership of the city of `clampRow`. -/
theorem bucket_list_adds_25_witness :
    prefsNoBucket.interests = prefsWithBucket.interests
    ∧ prefsNoBucket.budget_preference = prefsWithBucket.budget_preference
    ∧ ((prefsNoBucket.bucket_list_destinations.getD []).contains clampRow.city) = false
    ∧ ((prefsWithBucket.bucket_list_destinations.getD []).contains clampRow.city) = true
    ∧ (matchScoreRaw clampRow (some prefsWithBucket) {}
          = matchScoreRaw clampRow (some prefsNoBucket) {} + 25
       ∧ (matchScoreRaw clampRow (some prefsWithBucket) {} ≤ 100 →
           matchScore clampRow (some prefsWithBucket) {}
             = matchScore clampRow (some prefsNoBucket) {} + 25)) :=
  ⟨rfl, rfl, by decide, by decide,
   bucket_list_adds_25 clampRow prefsNoBucket prefsWithBucket {} rfl rfl
     (by decide) (by decide)⟩

/-- Counterexample for C2 as stated: on `clampRow` in May the non-bucket
score is 95 and the bucket score clamps at 100, a difference of 5, not 25. -/
theorem bucket_list_clamped_cex :
    matchScore clampRow (some prefsWithBucket) ctxMay
      ≠ matchScore clampRow (some prefsNoBucket) ctxMay + 25 := by
  have hmay : ("May" : String) ≠ "" := by decide
  have h1 : matchScore clampRow (some prefsWithBucket) ctxMay = 100 := by
    norm_num [matchScore, matchScoreRaw, profileBoost, contextBoost, seasonalBoost,
      popularityBoost, infrastructureBoost, clampRow, prefsWithBucket, ctxMay,
      profileInterestMatches, contextInterestMatches, bestMonths, hmay]
  have h2 : matchScore clampRow (some prefsNoBucket) ctxMay = 95 := by
    norm_num [matchScore, matchScoreRaw, profileBoost, contextBoost, seasonalBoost,
      popularityBoost, infrastructureBoost, clampRow, prefsNoBucket, ctxMay,
      profileInterestMatches, contextInterestMatches, bestMonths, hmay]
  rw [h1, h2]
  norm_num

/-- C8: holding the candidate and all other inputs fixed, the match score is
monotonically non-decreasing in the number of category tags matching the
profile interest list and in the number matching the context interest list. -/
theorem score_monotone_in_interest_matches (dest : CandidateRow)
    (up1 up2 : UserTravelPreferences) (c1 c2 : RecContext)
    (hb : up1.budget_preference = up2.budget_preference)
    (hk : up1.bucket_list_destinations = up2.bucket_list_destinations)
    (hm : c1.travel_month = c2.travel_month)
    (hp : profileInterestMatches (dest.destination_type.getD []) (up1.interests.getD [])
          ≤ profileInterestMatches (dest.destination_type.getD []) (up2.interests.getD []))
    (hc : contextMatchCount dest c1 ≤ contextMatchCount dest c2) :
    matchScore dest (some up1) c1 ≤ matchScore dest (some up2) c2 := by
  unfold matchScore
  apply min_le_min _ (le_refl 100)
  have hpb : profileBoost dest up1 ≤ profileBoost dest up2 := by
    unfold profileBoost
    rw [hb, hk]
    have hcast : ((profileInterestMatches (dest.destination_type.getD [])
          (up1.interests.getD []) : ℚ))
        ≤ ((profileInterestMatches (dest.destination_type.getD [])
          (up2.interests.getD []) : ℚ)) := by exact_mod_cast hp
    linarith
  have hcb : contextBoost dest c1 ≤ contextBoost dest c2 := by
    rw [contextBoost_eq_count, contextBoost_eq_count]
    have hcast : ((contextMatchCount dest c1 : ℚ)) ≤ ((contextMatchCount dest c2 : ℚ)) := by
      exact_mod_cast hc
    linarith
  have hsb := seasonalBoost_congr dest c1 c2 hm
  unfold matchScoreRaw
  dsimp only
  linarith

/-- Witness for C8: `tagRow` with an empty and a one-match interest list
under the same beach context. -/
theorem score_monotone_in_interest_matches_witness :
    prefsFewMatches.budget_preference = prefsMoreMatches.budget_preference
    ∧ prefsFewMatches.bucket_list_destinations = prefsMoreMatches.bucket_list_destinations
    ∧ ctxBeach.travel_month = ctxBeach.travel_month
    ∧ profileInterestMatches (tagRow.destination_type.getD []) (prefsFewMatches.interests.getD [])
        ≤ profileInterestMatches (tagRow.destination_type.getD []) (prefsMoreMatches.interests.getD [])
    ∧ contextMatchCount tagRow ctxBeach ≤ contextMatchCount tagRow ctxBeach
    ∧ matchScore tagRow (some prefsFewMatches) ctxBeach
        ≤ matchScore tagRow (some prefsMoreMatches) ctxBeach :=
  ⟨rfl, rfl, rfl, by decide, by decide,
   score_monotone_in_interest_matches tagRow prefsFewMatches prefsMoreMatches ctxBeach ctxBeach
     rfl rfl rfl (by decide) (by decide)⟩

/-- C3: for every found active destination and duration in [1, 30], when the
template lookup is empty and the generative call fails (including the
unconfigured-client throw), the itinerary handler returns a success whose
daily schedule has exactly `duration_days` entries, each with the correct
day number, a nonempty theme, nonempty morning/afternoon/evening activities,
nonempty breakfast/lunch/dinner, and the estimated daily cost. -/
theorem itinerary_fallback_complete (dest : Destination) (d : ℤ)
    (prof : Option TravelerProfile) (name err : String) (u t : Bool)
    (h1 : 1 ≤ d) (h2 : d ≤ 30) :
    ∃ resp, generatePersonalizedItinerary (some dest) none (.error err) u t
        { destination := name, duration_days := d, traveler_profile := prof } = .ok resp
      ∧ (resp.daily_schedule.length : ℤ) = d
      ∧ ∀ i (hi : i < resp.daily_schedule.length),
          resp.daily_schedule[i].day = i + 1
          ∧ resp.daily_schedule[i].theme ≠ ""
          ∧ resp.daily_schedule[i].morning.activity ≠ ""
          ∧ resp.daily_schedule[i].afternoon.activity ≠ ""
          ∧ resp.daily_schedule[i].evening.activity ≠ ""
          ∧ resp.daily_schedule[i].meals.breakfast ≠ ""
          ∧ resp.daily_schedule[i].meals.lunch ≠ ""
          ∧ resp.daily_schedule[i].meals.dinner ≠ ""
          ∧ resp.daily_schedule[i].estimated_cost = jsNumOr dest.average_daily_cost_usd 100 := by
  refine ⟨fallbackItinerary dest d, ?_, ?_, ?_⟩
  · simp only [generatePersonalizedItinerary]
    rw [if_neg (by omega : ¬ (d < 1 ∨ 30 < d))]
  · simp only [fallbackItinerary, List.length_map, List.length_range]
    omega
  · intro i hi
    have hi2 : i < ((List.range d.toNat).map (fallbackDay dest)).length := by
      simpa [fallbackItinerary] using hi
    have hel : (fallbackItinerary dest d).daily_schedule[i] = fallbackDay dest i := by
      show ((List.range d.toNat).map (fallbackDay dest))[i] = fallbackDay dest i
      rw [List.getElem_map, List.getElem_range]
    rw [hel]
    refine ⟨rfl, ?_, ?_, ?_,
      (by decide : ("Dinner and local nightlife" : String) ≠ ""),
      (by decide : ("Hotel or local café" : String) ≠ ""),
      (by decide : ("Local restaurant" : String) ≠ ""),
      (by decide : ("Traditional cuisine" : String) ≠ ""), rfl⟩
    · show (if i = 0 then "Arrival & City Introduction"
            else "Day " ++ toString (i + 1) ++ " Exploration") ≠ ""
      split
      · decide
      · exact append_ne_empty_left _ _ (append_ne_empty_left _ _ (by decide))
    · exact jsStrOr_ne_empty _ _ (by decide)
    · exact jsStrOr_ne_empty _ _ (by decide)

/-- Witness for C3: the seeded Barcelona row with a 2-day request. -/
theorem itinerary_fallback_complete_witness :
    (1 : ℤ) ≤ 2 ∧ (2 : ℤ) ≤ 30
    ∧ ∃ resp, generatePersonalizedItinerary (some seedBarcelona) none
          (.error "OpenAI not configured") true true
          { destination := "Barcelona", duration_days := 2, traveler_profile := none } = .ok resp
        ∧ (resp.daily_schedule.length : ℤ) = 2
        ∧ ∀ i (hi : i < resp.daily_schedule.length),
            resp.daily_schedule[i].day = i + 1
            ∧ resp.daily_schedule[i].theme ≠ ""
            ∧ resp.daily_schedule[i].morning.activity ≠ ""
            ∧ resp.daily_schedule[i].afternoon.activity ≠ ""
            ∧ resp.daily_schedule[i].evening.activity ≠ ""
            ∧ resp.daily_schedule[i].meals.breakfast ≠ ""
            ∧ resp.daily_schedule[i].meals.lunch ≠ ""
            ∧ resp.daily_schedule[i].meals.dinner ≠ ""
            ∧ resp.daily_schedule[i].estimated_cost
                = jsNumOr seedBarcelona.average_daily_cost_usd 100 :=
  ⟨by norm_num, by norm_num,
   itinerary_fallback_complete seedBarcelona 2 none "Barcelona" "OpenAI not configured"
     true true (by norm_num) (by norm_num)⟩

/-- C4 (amended): a failing or unconfigured generative enrichment call is
absorbed by the deterministic fallback of generate-personalized-itinerary
(the call still succeeds), but generate-travel-inspiration has no fallback
tier and surfaces the same failure verbatim as an error. (The original
claim asserted absorption for every tool request.) -/
theorem enrichment_failure_handling :
    (∀ (dest : Destination) (err name : String) (prof : Option TravelerProfile)
        (d : ℤ) (u t : Bool), 1 ≤ d → d ≤ 30 →
        (generatePersonalizedItinerary (some dest) none (.error err) u t
          { destination := name, duration_days := d, traveler_profile := prof }).isOk = true)
    ∧ ∀ (e : String) (destLookup : Option Destination) (saveOk : Bool)
        (input : GenerateInspirationInput),
        generateTravelInspiration (.error e) destLookup saveOk input = .error e := by
  constructor
  · intro dest err name prof d u t h1 h2
    simp only [generatePersonalizedItinerary]
    rw [if_neg (by omega : ¬ (d < 1 ∨ 30 < d))]
    rfl
  · intro e destLookup saveOk input
    rfl

/-- Witness for C4: a 2-day Barcelona itinerary request with enrichment
unconfigured succeeds, while the inspiration tool errors. -/
theorem enrichment_failure_handling_witness :
    ((1 : ℤ) ≤ 2 ∧ (2 : ℤ) ≤ 30)
    ∧ (generatePersonalizedItinerary (some seedBarcelona) none (.error "OpenAI not configured")
        true true { destination := "Barcelona", duration_days := 2,
                    traveler_profile := none }).isOk = true
    ∧ generateTravelInspiration (.error "OpenAI not configured") none true
        { content_type := "ARTICLE", theme := "ADVENTURE" } = .error "OpenAI not configured" :=
  ⟨⟨by norm_num, by norm_num⟩,
   enrichment_failure_handling.1 seedBarcelona "OpenAI not configured" "Barcelona" none 2
     true true (by norm_num) (by norm_num),
   enrichment_failure_handling.2 "OpenAI not configured" none true _⟩

/-- Counterexample for C4 as stated: a generate-travel-inspiration request
with the enrichment capability unconfigured returns an error envelope
instead of falling through to a deterministic tier. -/
theorem inspiration_surfaces_enrichment_error :
    generateTravelInspiration (.error "OpenAI not configured") none true
      { content_type := "ARTICLE", theme := "ADVENTURE" } = .error "OpenAI not configured" := rfl

/-- C7 (amended): the best-effort recommendation-log insert and the
best-effort generated-template insert are absorbed (the response is
independent of their outcome), but a failure of the matched-template
usage-counter UPDATE, which the source awaits outside any try/catch,
propagates and fails the itinerary call. (The original claim asserted
absorption for all three writes.) -/
theorem persistence_failure_policy :
    (∀ (prefsDb : Option UserTravelPreferences) (table : List CandidateRow)
        (aiP : Option (List ScoredRow)) (input : RecommendDestinationsInput),
        recommendDestinations prefsDb table aiP false input
          = recommendDestinations prefsDb table aiP true input)
    ∧ (∀ (destR : Option Destination) (tmplR : Option ItineraryTemplate)
        (enrich : Except String AIItinerary) (u : Bool) (input : GenerateItineraryInput),
        generatePersonalizedItinerary destR tmplR enrich u false input
          = generatePersonalizedItinerary destR tmplR enrich u true input)
    ∧ ∀ (dest : Destination) (tmpl : ItineraryTemplate) (enrich : Except String AIItinerary)
        (t : Bool) (name : String) (prof : Option TravelerProfile) (d : ℤ),
        1 ≤ d → d ≤ 30 →
        (generatePersonalizedItinerary (some dest) (some tmpl) enrich false t
          { destination := name, duration_days := d, traveler_profile := prof }).isOk = false := by
  refine ⟨fun _ _ _ _ => rfl, fun _ _ _ _ _ => rfl, ?_⟩
  intro dest tmpl enrich t name prof d h1 h2
  simp only [generatePersonalizedItinerary]
  rw [if_neg (by omega : ¬ (d < 1 ∨ 30 < d))]
  rfl

/-- Witness for C7: concrete calls exercising all three conjuncts. -/
theorem persistence_failure_policy_witness :
    ((1 : ℤ) ≤ 3 ∧ (3 : ℤ) ≤ 30)
    ∧ recommendDestinations none table12 none false { recommendation_count := some 5 }
        = recommendDestinations none table12 none true { recommendation_count := some 5 }
    ∧ generatePersonalizedItinerary (some seedBarcelona) none (.error "x") true false
        { destination := "Barcelona", duration_days := 3, traveler_profile := none }
        = generatePersonalizedItinerary (some seedBarcelona) none (.error "x") true true
        { destination := "Barcelona", duration_days := 3, traveler_profile := none }
    ∧ (generatePersonalizedItinerary (some seedBarcelona) (some sampleTemplate) (.error "x")
        false true { destination := "Barcelona", duration_days := 3,
                     traveler_profile := none }).isOk = false :=
  ⟨⟨by norm_num, by norm_num⟩,
   persistence_failure_policy.1 none table12 none _,
   persistence_failure_policy.2.1 (some seedBarcelona) none (.error "x") true _,
   persistence_failure_policy.2.2 seedBarcelona sampleTemplate (.error "x") true "Barcelona"
     none 3 (by norm_num) (by norm_num)⟩

/-- Counterexample for C7 as stated: with a matched template and a failing
usage-counter UPDATE, the itinerary call does not return its primary
success response. -/
theorem usage_counter_failure_fails_call :
    (generatePersonalizedItinerary (some seedBarcelona) (some sampleTemplate) (.error "x")
      false true { destination := "Barcelona", duration_days := 3,
                   traveler_profile := none }).isOk = false := by decide

/-- C5 (amended): on the deterministic path (generative personalization
unavailable), recommend-destinations returns at most the requested number of
recommendations, where the requested count defaults to 5 when absent, and
each returned entry carries at most 3 match reasons. (The original claim
also asserted a hard cap of 10; that cap exists only in the declared input
schema and is not enforced by the handler.) -/
theorem recommendations_truncated (prefsDb : Option UserTravelPreferences)
    (table : List CandidateRow) (logInsertOk : Bool) (input : RecommendDestinationsInput) :
    (recommendDestinations prefsDb table none logInsertOk input).recommendations.length
        ≤ input.recommendation_count.getD 5
    ∧ List.Forall (fun r => r.match_reasons.length ≤ 3)
        (recommendDestinations prefsDb table none logInsertOk input).recommendations := by
  simp only [recommendDestinations]
  split
  · constructor
    · simp
    · simp [List.Forall]
  · rw [ite_self]
    constructor
    · rw [length_formatRecommendations]
      exact List.length_take_le _ _
    · exact reasons_le_three_formatRecommendations _ _ _

/-- Counterexample for C5 as stated: a request with recommendation_count =
20 against a 12-row table returns 12 entries, more than the claimed hard
cap of 10. -/
theorem recommendation_count_cap_not_enforced :
    10 < (recommendDestinations none table12 none true
      { recommendation_count := some 20 }).recommendations.length := by
  have hq : candidateQuery table12 {} 20 = table12 := by decide
  have hne : table12.isEmpty = false := by decide
  have hlen : table12.length = 12 := by decide
  have h12 : (recommendDestinations none table12 none true
      { recommendation_count := some 20 }).recommendations.length = 12 := by
    simp [recommendDestinations, rankedCandidates, scoredCandidates, hq, hne, hlen,
      effectivePreferences, strTruthy, length_formatRecommendations,
      length_sortByScoreDesc, List.length_take]
  omega

/-- C6 (amended): on the deterministic path the recommendation list is
sorted in descending order of match score, and entries with equal match
scores retain the order in which the candidate query returned them
(descending popularity count, then descending infrastructure rating) — the
final sort is stable and does not reorder ties by infrastructure rating. -/
theorem ranking_sorted_desc (prefsDb : Option UserTravelPreferences)
    (table : List CandidateRow) (logInsertOk : Bool) (input : RecommendDestinationsInput) :
    List.Pairwise (fun a b : ℚ => b ≤ a)
      ((recommendDestinations prefsDb table none logInsertOk input).recommendations.map
        (fun r => r.match_score))
    ∧ ∀ s : ℚ, (rankedCandidates prefsDb table input).filter (fun c => c.match_score == s)
        = (scoredCandidates prefsDb table input).filter (fun c => c.match_score == s) := by
  constructor
  · simp only [recommendDestinations]
    split
    · simp
    · rw [ite_self, map_score_formatRecommendations]
      have hp := pairwise_sortByScoreDesc (scoredCandidates prefsDb table input)
      have hp2 := List.Pairwise.sublist
        (List.take_sublist (input.recommendation_count.getD 5)
          (rankedCandidates prefsDb table input)) hp
      exact List.pairwise_map.mpr hp2
  · intro s
    exact filter_sortByScoreDesc (scoredCandidates prefsDb table input) s

/-- Counterexample for C6 as stated: two candidates tie at score 60, yet the
entry with infrastructure rating 4 precedes the one rated 5, because the
tie keeps the candidate-query order (popularity first). -/
theorem ranking_tie_not_by_infrastructure :
    (rankedCandidates none [rowAville, rowBeetown] {}).map
      (fun c => (c.city, c.match_score, c.tourist_infrastructure_rating))
    = [("Beetown", 60, some 4), ("Aville", 60, some 5)] := by
  norm_num [rankedCandidates, scoredCandidates, candidateQuery, sqlOrder, insertSql,
    sqlBefore, infraHigher, sortByScoreDesc, insertByScore, matchScore, matchScoreRaw,
    profileBoost, contextBoost, seasonalBoost, popularityBoost, infrastructureBoost,
    effectivePreferences, strTruthy, rowAville, rowBeetown, List.foldl]

/-- C9: compare-destinations on the seeded data with
destinations=["Barcelona","Tokyo"] and criteria=["COST"] returns exactly one
criterion row, whose declared winner is Barcelona, the destination with the
lower average daily cost (120 versus 150). -/
theorem compare_cost_winner_barcelona :
    (compareDestinations seedDestinations "oct"
      { destinations := ["Barcelona", "Tokyo"], comparison_criteria := some ["COST"] }).map
      (fun r => r.criteria.map (fun c => (c.criterion, c.winner)))
    = .ok [("Average Daily Cost", some "Barcelona")] := by decide

/-- C10: a compare-destinations request of 2 to 4 names that repeats a city
(in any letter case) fails with the not-found error even when every named
destination exists and is active, because the lookup yields one row per
distinct city and that row count is compared against the request length. -/
theorem compare_duplicate_destinations_fails (table : List Destination) (monthKey : String)
    (input : CompareDestinationsInput)
    (htable : (table.map (fun d => lowerString d.city)).Nodup)
    (hlen2 : 2 ≤ input.destinations.length) (hlen4 : input.destinations.length ≤ 4)
    (hdup : ¬ (input.destinations.map lowerString).Nodup)
    (hexists : ∀ s ∈ input.destinations, ∃ d ∈ table,
        lowerString d.city = lowerString s ∧ d.is_active = true) :
    compareDestinations table monthKey input = .error "One or more destinations not found" := by
  have hflt := compare_filter_length_lt table input.destinations htable hdup
  simp only [compareDestinations]
  rw [if_neg (by omega : ¬ (input.destinations.length < 2 ∨ 4 < input.destinations.length))]
  rw [if_pos hflt]

/-- Witness for C10: the request ["Barcelona", "barcelona"] against the
seeded table, whose two names both resolve to the active Barcelona row. -/
theorem compare_duplicate_destinations_fails_witness :
    (seedDestinations.map (fun d => lowerString d.city)).Nodup
    ∧ 2 ≤ (["Barcelona", "barcelona"] : List String).length
    ∧ (["Barcelona", "barcelona"] : List String).length ≤ 4
    ∧ ¬ ((["Barcelona", "barcelona"] : List String).map lowerString).Nodup
    ∧ (∀ s ∈ (["Barcelona", "barcelona"] : List String), ∃ d ∈ seedDestinations,
        lowerString d.city = lowerString s ∧ d.is_active = true)
    ∧ compareDestinations seedDestinations "oct"
        { destinations := ["Barcelona", "barcelona"], comparison_criteria := some ["COST"] }
        = .error "One or more destinations not found" :=
  ⟨by decide, by decide, by decide, by decide, by decide,
   compare_duplicate_destinations_fails seedDestinations "oct"
     { destinations := ["Barcelona", "barcelona"], comparison_criteria := some ["COST"] }
     (by decide) (by decide) (by decide) (by decide) (by decide)⟩
